import Mathlib

/-
  Verification development for the Attendance-Tracking-System-Computer-Vision
  front end.  The definitions below are a shallow embedding of the code in
  src/src/pages/LiveFeed.tsx (capability negotiator, model loader, frame pump)
  and src/project/src/context/AttendanceContext.tsx (count aggregator).
  Machine numbers that the JavaScript code manipulates as IEEE doubles are
  modelled as rationals; all the concrete constants of the code are exactly
  representable, so no rounding questions arise in the properties proved here.
-/

namespace AttendanceCV

/-! ### Character-list string helpers

JavaScript `String.prototype.includes` is a substring test and
`String.prototype.toLowerCase` is a character-wise lowering for the ASCII
labels that appear here.  These are implemented structurally over `List Char`
so that concrete instances evaluate by `decide`. -/

/-- Boolean prefix test on character lists. -/
def isPrefixOfList : List Char → List Char → Bool
  | [], _ => true
  | _ :: _, [] => false
  | p :: ps, c :: cs => p == c && isPrefixOfList ps cs

/-- Boolean substring test: does `pat` occur contiguously inside the second
list?  Mirrors JavaScript `s.includes(pat)`. -/
def containsSubList (pat : List Char) : List Char → Bool
  | [] => pat.isEmpty
  | c :: cs => isPrefixOfList pat (c :: cs) || containsSubList pat cs

/-- The character data of a string, lowered character-wise; mirrors
JavaScript `s.toLowerCase()` for the ASCII device labels used here. -/
def lowerData (s : String) : List Char := s.data.map Char.toLower

/-! ### Tier constants of the frame pump (LiveFeed.tsx lines 687-695)

`IS_RASPBERRY_PI` is the constrained resource tier; `lowPowerMode` selects
between the two non-Pi modes.  The code computes
`DETECTION_INTERVAL = IS_RASPBERRY_PI ? 3000 : (lowPowerMode ? 2000 : 1000)`
and `MAX_FPS = IS_RASPBERRY_PI ? 3 : (lowPowerMode ? 10 : 30)`,
then `FRAME_INTERVAL = 1000 / MAX_FPS`. -/

/-- LiveFeed.tsx line 692: maximum frame rate by device tier. -/
def MAX_FPS (isPi lowPowerMode : Bool) : ℕ :=
  if isPi then 3 else if lowPowerMode then 10 else 30

/-- LiveFeed.tsx line 688: milliseconds between detection attempts. -/
def DETECTION_INTERVAL (isPi lowPowerMode : Bool) : ℕ :=
  if isPi then 3000 else if lowPowerMode then 2000 else 1000

/-- LiveFeed.tsx line 695: minimum time between processed frames in ms. -/
def FRAME_INTERVAL (isPi lowPowerMode : Bool) : ℚ :=
  1000 / (MAX_FPS isPi lowPowerMode : ℚ)

/-! ### Device selection (LiveFeed.tsx lines 304-336, inside startCamera) -/

/-- A `MediaDeviceInfo` as consumed by `startCamera`. -/
structure MediaDevice where
  deviceId : String
  kind : String
  label : String
  deriving DecidableEq, Repr

/-- LiveFeed.tsx lines 311-317: the predicate of the `externalWebcams`
filter.  Note the truthiness test `label && ...`: a device with an empty
label is never classified as an external webcam. -/
def isExternalWebcam (device : MediaDevice) : Bool :=
  let label := lowerData device.label
  !label.isEmpty
    && !containsSubList ("built-in".data) label
    && !containsSubList ("facetime".data) label
    && !containsSubList ("internal".data) label

/-- LiveFeed.tsx lines 305-336: which device the acquired stream is pinned
to.  The code filters to `videoinput` devices, prefers the first element of
`externalWebcams`, otherwise takes the first video device, and if there are
no video devices at all it simply sets no `deviceId` constraint (modelled as
`none`); no error is raised at this stage. -/
def selectPreferredDevice (devices : List MediaDevice) : Option MediaDevice :=
  let videoDevices := devices.filter (fun d => d.kind == "videoinput")
  let externalWebcams := videoDevices.filter isExternalWebcam
  match externalWebcams with
  | d :: _ => some d
  | [] => videoDevices.head?

/-- Restatement of the amended device-selection contract in the language of
`List.find?`: the first video device satisfying the external-webcam
heuristic, else the first video device, else nothing. -/
def selectPreferredDeviceFind (devices : List MediaDevice) : Option MediaDevice :=
  let videoDevices := devices.filter (fun d => d.kind == "videoinput")
  match videoDevices.find? isExternalWebcam with
  | some d => some d
  | none => videoDevices.head?

/-! ### Camera error classification (LiveFeed.tsx lines 425-440) -/

/-- LiveFeed.tsx lines 425-437: the catch-all handler of `startCamera`.
Every acquisition failure reaches this total classifier (nothing is
re-thrown); the JavaScript `cameraError.message || 'Unknown error'` fallback
is modelled by the empty-string test. -/
def classifyCameraError (name message : String) : String :=
  if name = "NotReadableError" then
    "Camera is in use by another application. Please close other apps using the camera and try again."
  else if name = "NotAllowedError" then
    "Camera access denied. Please allow camera access in your browser settings."
  else
    "Could not access camera: " ++ (if message = "" then "Unknown error" else message)
      ++ ". Please check permissions and try again."

/-! ### Model loader (LiveFeed.tsx lines 79-281)

The module-level mutable globals `model` and `isModelLoading` (lines 23-25)
are gathered into a `LoaderState`.  A capability is an opaque handle to a
loaded model; here capabilities are identified by natural numbers.  The body
of `loadModel` is a cascade of network model fetches whose outcome is an
input of the embedding: either the primary cascade produces a capability,
or it throws and the emergency `blazeface.load()` fallback (lines 259-263)
produces one, or every attempt throws (lines 270-277).  The `finally` block
at line 279 resets `isModelLoading` on every path. -/

/-- Opaque handle to a loaded detection model. -/
abbrev Capability := ℕ

/-- The module-level loader globals of LiveFeed.tsx lines 23-25. -/
structure LoaderState where
  isModelLoading : Bool
  model : Option Capability
  deriving DecidableEq, Repr

/-- Environment outcome of one run of the loading cascade. -/
inductive LoadOutcome where
  | primaryOk (c : Capability)
  | primaryFailEmergencyOk (c : Capability)
  | allFail
  deriving DecidableEq, Repr

/-- Result of one `loadModel` invocation: the value the call returns, the
module state it leaves behind, and how many model fetches it started. -/
structure LoadResult where
  returned : Option Capability
  state : LoaderState
  fetchesStarted : ℕ
  deriving DecidableEq, Repr

/-- LiveFeed.tsx lines 79-281.  Line 81 is the guard
`if (isModelLoading) return model;`: a call made while a load is in progress
returns the current module-level `model` at once — it does not await the
in-flight load — and starts no fetch.  Otherwise the cascade runs: on
success `model` is assigned and returned (one fetch); if the primary path
throws, the emergency `blazeface.load()` is a second fetch; if that also
throws, `model` is left unchanged and `null` is returned (line 276). -/
def loadModel (s : LoaderState) (outcome : LoadOutcome) : LoadResult :=
  if s.isModelLoading then
    { returned := s.model, state := s, fetchesStarted := 0 }
  else
    match outcome with
    | .primaryOk c =>
        { returned := some c
          state := { isModelLoading := false, model := some c }
          fetchesStarted := 1 }
    | .primaryFailEmergencyOk c =>
        { returned := some c
          state := { isModelLoading := false, model := some c }
          fetchesStarted := 2 }
    | .allFail =>
        { returned := none
          state := { isModelLoading := false, model := s.model }
          fetchesStarted := 2 }

/-! ### Frame pump (LiveFeed.tsx lines 683-793)

One `requestAnimationFrame` callback (`processFrame`, lines 718-780) is one
`processFrameTick`.  The closure variables `lastProcessTime` and the module
globals `frameProcessingEnabled` / `frameSkipCounter` form the `PumpState`.
`MAX_FPS`, `DETECTION_INTERVAL` and `FRAME_INTERVAL` are captured once per
effect run, so within a run of ticks `isPi` and `lowPowerMode` are fixed
parameters (a `setLowPowerMode` call restarts the effect; that transition is
modelled separately by `lowPowerAfterDetection`). -/

/-- Loop state across ticks: the `ProcessingGate` flag of line 26, the
`lastProcessTime` closure variable of line 685, and the module-level
`frameSkipCounter` of line 29. -/
structure PumpState where
  frameProcessingEnabled : Bool
  lastProcessTime : ℚ
  frameSkipCounter : ℕ
  deriving DecidableEq, Repr

/-- Inputs of one tick: the `requestAnimationFrame` timestamp, the React
state read by the closure, the video dimensions, and whether the awaited
`processVideoFrame()` call resolves (`detectOk = true`) or throws. -/
structure TickInput where
  timestamp : ℚ
  isStreaming : Bool
  isPaused : Bool
  isModelReady : Bool
  videoWidth : ℤ
  videoHeight : ℤ
  detectOk : Bool
  deriving DecidableEq, Repr

/-- LiveFeed.tsx line 735: in low-power mode the video is only rendered on
every other processed frame. -/
def shouldRenderVideo (lowPowerMode : Bool) (frameSkipCounter : ℕ) : Bool :=
  !lowPowerMode || frameSkipCounter % 2 == 0

/-- LiveFeed.tsx lines 747-778: the guarded detection attempt.  The gate is
set to `false` (line 749), the awaited `processVideoFrame()` runs inside
`try ... finally` so the gate is restored to `true` whether it resolves or
throws (lines 755-760), `lastProcessTime` is advanced only on success
(line 773), and the outer `catch` also restores the gate (line 777). -/
def detectionAttempt (s : PumpState) (inp : TickInput) : PumpState :=
  let s1 : PumpState := { s with frameProcessingEnabled := false }
  let s2 : PumpState := { s1 with frameProcessingEnabled := true }
  if inp.detectOk then
    { s2 with lastProcessTime := inp.timestamp }
  else
    { s2 with frameProcessingEnabled := true }

/-- LiveFeed.tsx lines 718-780: one tick of `processFrame`.  Returns whether
the video frame was drawn this tick, together with the next state.  The
early return at line 727 skips the tick when less than `FRAME_INTERVAL` has
elapsed since `lastProcessTime`; rendering happens when streaming, not
paused, and not skipped by the low-power frame-skip counter (lines 732-738);
detection runs under the conjunction of guards at lines 741-746. -/
def processFrameTick (isPi lowPowerMode : Bool) (s : PumpState) (inp : TickInput) :
    Bool × PumpState :=
  if inp.timestamp - s.lastProcessTime < FRAME_INTERVAL isPi lowPowerMode then
    (false, s)
  else
    let frameSkipCounter :=
      if inp.isStreaming && !inp.isPaused then s.frameSkipCounter + 1
      else s.frameSkipCounter
    let rendered :=
      inp.isStreaming && !inp.isPaused && shouldRenderVideo lowPowerMode frameSkipCounter
    let s1 : PumpState := { s with frameSkipCounter := frameSkipCounter }
    if (DETECTION_INTERVAL isPi lowPowerMode : ℚ) < inp.timestamp - s1.lastProcessTime
        ∧ inp.isModelReady = true ∧ inp.isPaused = false
        ∧ (10 : ℤ) < inp.videoWidth ∧ (10 : ℤ) < inp.videoHeight
        ∧ s1.frameProcessingEnabled = true then
      (rendered, detectionAttempt s1 inp)
    else
      (rendered, s1)

/-- The pump state after a sequence of ticks. -/
def runTicks (isPi lowPowerMode : Bool) (s : PumpState) (inputs : List TickInput) :
    PumpState :=
  inputs.foldl (fun t inp => (processFrameTick isPi lowPowerMode t inp).2) s

/-- LiveFeed.tsx lines 765-771: the self-downgrade rule applied after a
detection whose measured duration is `processingTime`.  If the detection
took more than 500 ms and the device is a Pi not already in low-power mode,
`setLowPowerMode(true)` is called; otherwise `lowPowerMode` is unchanged. -/
def lowPowerAfterDetection (isPi lowPowerMode : Bool) (processingTime : ℚ) : Bool :=
  if 500 < processingTime then
    if !lowPowerMode && isPi then true else lowPowerMode
  else lowPowerMode

/-! ### Detection-input scaling and box rescaling
(LiveFeed.tsx lines 566-577 and 638-656) -/

/-- LiveFeed.tsx line 569: downscale factor of the temporary detection
canvas, by mode. -/
def detectionScaleFactor (isPi lowPowerMode : Bool) : ℚ :=
  if isPi then 35 / 100 else if lowPowerMode then 6 / 10 else 85 / 100

/-- LiveFeed.tsx line 646: the hardcoded factor by which `blazefaceDetection`
scales box coordinates back up before drawing. -/
def blazefaceRescaleFactor (isPi lowPowerMode : Bool) : ℚ :=
  if isPi then 285 / 100 else if lowPowerMode then 167 / 100 else 118 / 100

/-- LiveFeed.tsx line 571: `tempCanvas.width = Math.floor(canvas.width * scaleFactor)`. -/
def detectionInputWidth (isPi lowPowerMode : Bool) (canvasWidth : ℕ) : ℤ :=
  Rat.floor ((canvasWidth : ℚ) * detectionScaleFactor isPi lowPowerMode)

/-- A bounding box in canvas pixel coordinates. -/
structure FaceBox where
  x : ℚ
  y : ℚ
  width : ℚ
  height : ℚ
  deriving DecidableEq, Repr

/-- LiveFeed.tsx lines 638-650: from a BlazeFace prediction given by its
`topLeft` and `bottomRight` corners in detection-input coordinates, the box
that is drawn on the full canvas. -/
def rescaleFaceBox (isPi lowPowerMode : Bool)
    (topLeftX topLeftY bottomRightX bottomRightY : ℚ) : FaceBox :=
  let x := topLeftX
  let y := topLeftY
  let width := bottomRightX - topLeftX
  let height := bottomRightY - topLeftY
  let scaleFactor := blazefaceRescaleFactor isPi lowPowerMode
  ⟨x * scaleFactor, y * scaleFactor, width * scaleFactor, height * scaleFactor⟩

/-! ### Count aggregator (src/project/src/context/AttendanceContext.tsx) -/

/-- The `status` field of `SystemStatus` (`active`, `warning` or `error`). -/
inductive StatusLevel where
  | active
  | warning
  | error
  deriving DecidableEq, Repr

/-- The `SystemStatus` interface. -/
structure SystemStatus where
  status : StatusLevel
  message : String
  deriving DecidableEq, Repr

/-- A `LocationData` record as held in context state. -/
structure LocationData where
  id : String
  name : String
  capacity : ℚ
  deriving DecidableEq, Repr

/-- AttendanceContext.tsx lines 393-394:
`state.locations.find(loc => loc.id === state.activeLocation)` followed by
`activeLocationData?.capacity || 50` (a capacity of `0` is falsy in
JavaScript, so it also falls back to 50). -/
def effectiveCapacity (locations : List LocationData) (activeLocation : String) : ℚ :=
  match locations.find? (fun loc => loc.id == activeLocation) with
  | some loc => if loc.capacity == 0 then 50 else loc.capacity
  | none => 50

/-- AttendanceContext.tsx lines 392-421: derive a `SystemStatus` from the
reported count.  The branches are tested in source order: zero count, then
`count > capacity * 0.9`, then `count > capacity`, else normal. -/
def getStatus (locations : List LocationData) (activeLocation : String)
    (count : ℕ) : SystemStatus :=
  let capacity := effectiveCapacity locations activeLocation
  if count = 0 then
    ⟨.warning, "No individuals detected in frame"⟩
  else if capacity * (9 / 10) < (count : ℚ) then
    ⟨.warning, "Near capacity (" ++ toString count ++ "/" ++ toString capacity ++ ")"⟩
  else if capacity < (count : ℚ) then
    ⟨.error, "Over capacity (" ++ toString count ++ "/" ++ toString capacity ++ ")"⟩
  else
    ⟨.active, "Normal operation"⟩

/-- An entry or exit record as produced by `setCount`, carrying the
magnitude of the change. -/
inductive EntryExit where
  | entry (count : ℤ)
  | exit (count : ℤ)
  deriving DecidableEq, Repr

/-- AttendanceContext.tsx lines 684-693: the entry/exit detection of
`setCount`.  An event is recorded only when
`Math.abs(newCount - previousCount) > 1`; a rise records an entry of the
difference, a fall records an exit of the difference. -/
def entryExitChange (previousCount newCount : ℤ) : Option EntryExit :=
  if 1 < (newCount - previousCount).natAbs then
    if previousCount < newCount then some (.entry (newCount - previousCount))
    else if newCount < previousCount then some (.exit (previousCount - newCount))
    else none
  else none

/-! ### Helper lemmas -/

/-- The head of a filtered list is the first element satisfying the
predicate. -/
theorem head_filter_eq_find {α : Type} (p : α → Bool) (l : List α) :
    (l.filter p).head? = l.find? p := by
  induction l with
  | nil => rfl
  | cons a t ih =>
      by_cases h : p a = true
      · simp [List.filter, List.find?, h]
      · simp only [Bool.not_eq_true] at h
        simp [List.filter, List.find?, h, ih]

/-- One tick leaves the processing gate set whenever it started set: the
detection branch restores it on both the resolve and the throw path, and
every other path leaves it untouched. -/
theorem gate_true_after_tick (isPi lowPowerMode : Bool) (s : PumpState)
    (inp : TickInput) (h : s.frameProcessingEnabled = true) :
    (processFrameTick isPi lowPowerMode s inp).2.frameProcessingEnabled = true := by
  unfold processFrameTick detectionAttempt
  dsimp only
  split_ifs <;> first | exact h | rfl

/-! ### Claim theorems -/

/-- C1: for every tick in which a detection attempt starts, the
`frameProcessingEnabled` gate is set back to `true` by the time the attempt
finishes, whether `processVideoFrame` resolves or throws; hence after any
sequence of ticks starting from a clear gate — including ticks whose
detections error — the gate is clear again, so detection on later ticks is
not blocked. -/
theorem C1_processing_gate_cleared (isPi lowPowerMode : Bool) (s : PumpState)
    (inputs : List TickInput) (h : s.frameProcessingEnabled = true) :
    (runTicks isPi lowPowerMode s inputs).frameProcessingEnabled = true := by
  induction inputs generalizing s with
  | nil => exact h
  | cons inp rest ih =>
      exact ih ((processFrameTick isPi lowPowerMode s inp).2)
        (gate_true_after_tick isPi lowPowerMode s inp h)

/-- Witness for C1: a concrete two-tick run on the constrained tier in which
the first tick runs a detection that resolves and the second runs a
detection that throws; the gate is clear at the end. -/
theorem C1_processing_gate_cleared_witness :
    (PumpState.mk true 0 0).frameProcessingEnabled = true ∧
    (runTicks true true (PumpState.mk true 0 0)
        [⟨4000, true, false, true, 640, 480, true⟩,
         ⟨8000, true, false, true, 640, 480, false⟩]).frameProcessingEnabled = true :=
  ⟨rfl, C1_processing_gate_cleared true true (PumpState.mk true 0 0)
    [⟨4000, true, false, true, 640, 480, true⟩,
     ⟨8000, true, false, true, 640, 480, false⟩] rfl⟩

/-- C2 counterexample: while a load that will produce capability 7 is in
flight (`isModelLoading = true`, the module-level `model` still `none`), a
second `loadModel` invocation returns `none` — not the in-flight result
`some 7` that the same cascade delivers to the first caller — so the claim
that a concurrent caller awaits and receives the in-flight result is false.
(The call does start zero fetches, so the no-duplicate-fetch half holds.) -/
theorem C2_single_flight_counterexample :
    (loadModel ⟨true, none⟩ (.primaryOk 7)).returned = none ∧
    (loadModel ⟨false, none⟩ (.primaryOk 7)).returned = some 7 ∧
    (loadModel ⟨true, none⟩ (.primaryOk 7)).returned ≠
      (loadModel ⟨false, none⟩ (.primaryOk 7)).returned ∧
    (loadModel ⟨true, none⟩ (.primaryOk 7)).fetchesStarted = 0 := by decide

/-- C2 amended: a `loadModel` invocation made while a load is in progress
returns immediately with the current module-level `model` (`none` if no load
has ever completed, possibly a stale earlier capability), leaves the state
untouched, and starts no model fetch; it does not await the in-flight
load's result. -/
theorem C2_load_in_progress_returns_current_model (s : LoaderState)
    (outcome : LoadOutcome) (h : s.isModelLoading = true) :
    loadModel s outcome = ⟨s.model, s, 0⟩ := by
  simp [loadModel, h]

/-- Witness for C2's amended theorem at a state holding a stale capability. -/
theorem C2_load_in_progress_returns_current_model_witness :
    (LoaderState.mk true (some 3)).isModelLoading = true ∧
    loadModel (LoaderState.mk true (some 3)) (.primaryOk 7) =
      ⟨some 3, LoaderState.mk true (some 3), 0⟩ :=
  ⟨rfl, C2_load_in_progress_returns_current_model (LoaderState.mk true (some 3))
    (.primaryOk 7) rfl⟩

/-- C3 counterexample: on the constrained tier a 600 ms detection does flip
`lowPowerMode` to `true`, but `MAX_FPS`, `DETECTION_INTERVAL` and
`FRAME_INTERVAL` are identical for both `lowPowerMode` values when
`IS_RASPBERRY_PI` holds, so subsequent ticks use the same — not a strictly
lower — frame-rate ceiling and detection frequency. -/
theorem C3_slow_detection_downgrade_counterexample :
    lowPowerAfterDetection true false 600 = true ∧
    MAX_FPS true true = MAX_FPS true false ∧
    DETECTION_INTERVAL true true = DETECTION_INTERVAL true false ∧
    FRAME_INTERVAL true true = FRAME_INTERVAL true false := by
  norm_num [lowPowerAfterDetection, MAX_FPS, DETECTION_INTERVAL, FRAME_INTERVAL]

/-- C3 amended: on a constrained-tier device not already in low-power mode,
a detection whose wall-clock duration exceeds 500 ms flips `lowPowerMode` to
`true`; however the Pi branch fixes `MAX_FPS = 3` and
`DETECTION_INTERVAL = 3000` for both `lowPowerMode` values, so subsequent
ticks keep the same ceilings — the only throughput reduction is that the
video is then rendered only on every other processed tick. -/
theorem C3_slow_detection_downgrade_amended (processingTime : ℚ)
    (h : 500 < processingTime) :
    lowPowerAfterDetection true false processingTime = true ∧
    (∀ lowPowerMode : Bool,
      MAX_FPS true lowPowerMode = 3 ∧ DETECTION_INTERVAL true lowPowerMode = 3000) ∧
    (∀ k : ℕ, shouldRenderVideo false k = true ∧
      shouldRenderVideo true k = (k % 2 == 0)) := by
  refine ⟨?_, fun _ => ⟨rfl, rfl⟩, fun k => ⟨rfl, ?_⟩⟩
  · simp [lowPowerAfterDetection, h]
  · simp [shouldRenderVideo]

/-- Witness for C3's amended theorem at a 600 ms detection. -/
theorem C3_slow_detection_downgrade_amended_witness :
    (500 : ℚ) < 600 ∧ lowPowerAfterDetection true false 600 = true :=
  ⟨by norm_num, (C3_slow_detection_downgrade_amended 600 (by norm_num)).1⟩

/-- C4 counterexample: the detection interval chosen for the constrained
tier (3000 ms) is not less than or equal to the one chosen for the standard
tier (2000 ms in low-power, 1000 ms in high-performance). -/
theorem C4_tier_ordering_counterexample :
    ¬ DETECTION_INTERVAL true true ≤ DETECTION_INTERVAL false true := by decide

/-- C4 amended: the constrained-tier `MAX_FPS` is less than or equal to
every standard-tier `MAX_FPS`, and the constrained-tier
`DETECTION_INTERVAL` is greater than or equal to every standard-tier one
(i.e. the constrained tier detects less frequently, not with a smaller
interval). -/
theorem C4_tier_ordering_amended :
    ∀ piLowPower stdLowPower : Bool,
      MAX_FPS true piLowPower ≤ MAX_FPS false stdLowPower ∧
      DETECTION_INTERVAL false stdLowPower ≤ DETECTION_INTERVAL true piLowPower := by
  decide

/-- C5 counterexample: in the list
`[built-in-labelled device, empty-label device]` the empty label contains
none of the substrings `built-in` / `internal` / `facetime`, so by the claim
the empty-label device should be selected as the first non-built-in device;
the code instead rejects it in the `externalWebcams` filter (the JavaScript
truthiness test `label && ...`) and falls back to the first device of the
list, the built-in one. -/
theorem C5_device_selection_counterexample :
    (selectPreferredDevice
        [⟨"id0", "videoinput", "Built-in Camera"⟩,
         ⟨"id1", "videoinput", ""⟩]).map MediaDevice.deviceId = some "id0" ∧
    containsSubList ("built-in".data) (lowerData "") = false ∧
    containsSubList ("internal".data) (lowerData "") = false ∧
    containsSubList ("facetime".data) (lowerData "") = false := by decide

/-- C5 amended: the selected device is the first video device whose
lowercased label is non-empty and contains none of `built-in`, `internal`,
`facetime`; if no such device exists, the first video device; and for the
empty device list no device is selected (the code sets no `deviceId`
constraint and raises no NoCameraFound error at this stage). -/
theorem C5_device_selection_amended (devices : List MediaDevice) :
    selectPreferredDevice devices = selectPreferredDeviceFind devices ∧
    selectPreferredDevice [] = none := by
  refine ⟨?_, rfl⟩
  unfold selectPreferredDevice selectPreferredDeviceFind
  dsimp only
  rw [← head_filter_eq_find]
  cases ((devices.filter fun d => d.kind == "videoinput").filter isExternalWebcam) <;> simp

/-- C6: evaluation of the frame pump at the failing input.  With the loop
freshly started (`lastProcessTime = 0`) and the model not yet ready, the
ticks at 34 ms and 50 ms both draw the video frame even though they are only
16 ms apart, closer than `FRAME_INTERVAL = 1000/30` ms for the
high-performance mode: `lastProcessTime` is only advanced when a detection
runs, so the frame-rate ceiling of the claim is not enforced between
detections. -/
theorem C6_frame_ceiling_violation :
    (processFrameTick false false ⟨true, 0, 0⟩
        ⟨34, true, false, false, 640, 480, true⟩).1 = true ∧
    (processFrameTick false false
        (processFrameTick false false ⟨true, 0, 0⟩
          ⟨34, true, false, false, 640, 480, true⟩).2
        ⟨50, true, false, false, 640, 480, true⟩).1 = true ∧
    (50 : ℚ) - 34 < FRAME_INTERVAL false false := by
  norm_num [processFrameTick, FRAME_INTERVAL, MAX_FPS, DETECTION_INTERVAL,
    shouldRenderVideo]

/-- C7: every stream-acquisition failure is classified by the underlying
error name — `NotReadableError` yields the camera-busy message,
`NotAllowedError` the permission-denied message, and any other error a
generic message that includes the underlying error message; the classifier
is total, so no failure is left unreported or re-thrown. -/
theorem C7_camera_error_classification (name message : String) :
    (name = "NotReadableError" →
      classifyCameraError name message =
        "Camera is in use by another application. Please close other apps using the camera and try again.") ∧
    (name = "NotAllowedError" →
      classifyCameraError name message =
        "Camera access denied. Please allow camera access in your browser settings.") ∧
    (name ≠ "NotReadableError" → name ≠ "NotAllowedError" → message ≠ "" →
      classifyCameraError name message =
        "Could not access camera: " ++ message ++ ". Please check permissions and try again.") := by
  refine ⟨fun h => ?_, fun h => ?_, fun h1 h2 h3 => ?_⟩
  · simp [classifyCameraError, h]
  · subst h
    simp [classifyCameraError]
  · simp [classifyCameraError, h1, h2, h3]

/-- Witness for C7 exercising all three classification branches. -/
theorem C7_camera_error_classification_witness :
    classifyCameraError "NotReadableError" "x" =
      "Camera is in use by another application. Please close other apps using the camera and try again." ∧
    classifyCameraError "NotAllowedError" "x" =
      "Camera access denied. Please allow camera access in your browser settings." ∧
    classifyCameraError "USBDeviceError" "device unplugged" =
      "Could not access camera: device unplugged. Please check permissions and try again." :=
  ⟨(C7_camera_error_classification "NotReadableError" "x").1 rfl,
   (C7_camera_error_classification "NotAllowedError" "x").2.1 rfl,
   (C7_camera_error_classification "USBDeviceError" "device unplugged").2.2
     (by decide) (by decide) (by decide)⟩

/-- C8 counterexample: on the constrained tier with a 640-pixel-wide canvas
the detection input is `floor(640 * 0.35) = 224` pixels wide, so the exact
up-scale ratio is `640/224 = 20/7`; the code instead multiplies coordinates
by the hardcoded `2.85`, which differs from the exact ratio, so a box corner
at detection-input x = 10 is drawn at 28.5 rather than 10 * 640/224. -/
theorem C8_rescale_exact_ratio_counterexample :
    detectionInputWidth true true 640 = 224 ∧
    blazefaceRescaleFactor true true ≠ (640 : ℚ) / 224 ∧
    (rescaleFaceBox true true 10 0 20 0).x ≠ 10 * ((640 : ℚ) / 224) := by
  refine ⟨?_, ?_, ?_⟩
  · norm_num [detectionInputWidth, detectionScaleFactor]
    rfl
  · norm_num [blazefaceRescaleFactor]
  · norm_num [rescaleFaceBox, blazefaceRescaleFactor]

/-- C8 amended: each box coordinate produced on the downscaled detection
input is rescaled by a fixed hardcoded factor (2.85 constrained, 1.67
low-power, 1.18 high-performance); these factors approximate the inverse of
the corresponding downscale factors (0.35, 0.6, 0.85) to within 1 percent
but are not in general equal to the exact canvas-to-detection-input ratio. -/
theorem C8_rescale_hardcoded_factor_amended (isPi lowPowerMode : Bool)
    (topLeftX topLeftY bottomRightX bottomRightY : ℚ) :
    rescaleFaceBox isPi lowPowerMode topLeftX topLeftY bottomRightX bottomRightY =
      ⟨topLeftX * blazefaceRescaleFactor isPi lowPowerMode,
       topLeftY * blazefaceRescaleFactor isPi lowPowerMode,
       (bottomRightX - topLeftX) * blazefaceRescaleFactor isPi lowPowerMode,
       (bottomRightY - topLeftY) * blazefaceRescaleFactor isPi lowPowerMode⟩ ∧
    |blazefaceRescaleFactor isPi lowPowerMode * detectionScaleFactor isPi lowPowerMode - 1|
      ≤ 1 / 100 := by
  refine ⟨rfl, ?_⟩
  cases isPi <;> cases lowPowerMode <;>
    · simp only [blazefaceRescaleFactor, detectionScaleFactor]
      rw [abs_le]
      constructor <;> norm_num

/-- C9: the status derived by `getStatus` is never `error`: the zero-count
branch returns first for `count = 0`, and any count exceeding the capacity
also exceeds nine tenths of it (the reported count is a natural number, so
a negative-capacity corner cannot make the near-capacity test fail while
the over-capacity test passes), so the near-capacity `warning` branch,
tested first, shadows the `error` branch. -/
theorem C9_error_status_unreachable (locations : List LocationData)
    (activeLocation : String) (count : ℕ) :
    (getStatus locations activeLocation count).status ≠ StatusLevel.error := by
  unfold getStatus
  dsimp only
  split
  · simp
  next h0 =>
    split
    · simp
    next h1 =>
      split
      next h2 =>
        exfalso
        have hn : (1 : ℚ) ≤ (count : ℚ) := by
          exact_mod_cast Nat.one_le_iff_ne_zero.mpr h0
        have h1' : (count : ℚ) ≤
            effectiveCapacity locations activeLocation * (9 / 10) := le_of_not_lt h1
        linarith
      · simp

/-- C10: `setCount` records an entry or exit event if and only if the
absolute difference between the new and the previous count is strictly
greater than 1 — an entry of magnitude `newCount - previousCount` on a
rise, an exit of magnitude `previousCount - newCount` on a fall — and a
change of at most one person records nothing. -/
theorem C10_entry_exit_iff_delta_gt_one (previousCount newCount : ℤ) :
    (1 < newCount - previousCount →
      entryExitChange previousCount newCount =
        some (.entry (newCount - previousCount))) ∧
    (1 < previousCount - newCount →
      entryExitChange previousCount newCount =
        some (.exit (previousCount - newCount))) ∧
    ((newCount - previousCount).natAbs ≤ 1 →
      entryExitChange previousCount newCount = none) ∧
    ((entryExitChange previousCount newCount).isSome ↔
      1 < (newCount - previousCount).natAbs) := by
  refine ⟨fun h => ?_, fun h => ?_, fun h => ?_, ?_⟩
  · unfold entryExitChange
    split_ifs <;> first | rfl | omega
  · unfold entryExitChange
    split_ifs <;> first | rfl | omega
  · unfold entryExitChange
    split_ifs <;> first | rfl | omega
  · unfold entryExitChange
    split_ifs <;> simp_all
    omega

/-- Witness for C10 at the spec scenario `0 → 5` (one entry of magnitude 5)
and at a change of exactly one person (no record). -/
theorem C10_entry_exit_iff_delta_gt_one_witness :
    entryExitChange 0 5 = some (.entry (5 - 0)) ∧ entryExitChange 4 5 = none :=
  ⟨(C10_entry_exit_iff_delta_gt_one 0 5).1 (by decide),
   (C10_entry_exit_iff_delta_gt_one 4 5).2.2.1 (by decide)⟩

end AttendanceCV
